import Mathlib

/-!
Verification of the ToneClone CLI API-client core (package `client`):
request construction (`makeRequest`), response decoding (`doRequest`),
the rate-limit retry engine (`doRequestWithRetry`), the `Health` probe,
and client construction (`NewClient` with options, `WithBaseURL`,
`NewToneCloneClientFromConfig`).

The Go code is shallowly embedded: machine `int`/`time.Duration` values
are `Int` with an explicit two's-complement wrap (`wrap64`) where the
source can overflow; JSON (un)marshalling is abstracted by caller
supplied partial decode functions; the network and the real-time wait
of a backoff sleep are oracles (`attempts`, `waits`) indexed by the
attempt number.
-/

/-! ## Go standard-library fragments used by the client -/

/-- Two's-complement wrap of an integer into the signed 64-bit range,
modelling Go's defined signed-overflow semantics for `int`/`int64`
arithmetic.  The numerals are `2^63` and `2^64`. -/
def wrap64 (x : Int) : Int :=
  (x + 9223372036854775808) % 18446744073709551616 - 9223372036854775808

/-- Nanoseconds per second: `time.Second` as an `int64` count of
nanoseconds (`time.Duration` is an `int64` nanosecond count). -/
def NsPerSecond : Int := 1000000000

/-- Go `1 << attempt` on `int`: shifts of 64 or more yield 0, smaller
shifts wrap in the signed 64-bit range. -/
def goShl1 (n : Nat) : Int :=
  if 64 ≤ n then 0 else wrap64 (2 ^ n)

/-- Accumulator loop of base-10 digit parsing: consumes the list,
failing on the first non-digit character. -/
def digitsValAux : List Char → Nat → Option Nat
  | [], acc => some acc
  | c :: cs, acc =>
      if c.isDigit then digitsValAux cs (acc * 10 + (c.toNat - '0'.toNat)) else none

/-- Go `strconv.ParseInt(s, 10, 64)` (and `strconv.Atoi` on a 64-bit
platform): an optional single leading sign followed by one or more
ASCII digits; `none` on the empty string, on any non-digit character,
and on values outside the `int64` range. -/
def goParseInt64 (s : String) : Option Int :=
  let cs := s.toList
  let signAndDigits : Bool × List Char :=
    match cs with
    | '+' :: rest => (false, rest)
    | '-' :: rest => (true, rest)
    | rest => (false, rest)
  match signAndDigits with
  | (neg, ds) =>
      if ds.isEmpty then none
      else
        match digitsValAux ds 0 with
        | none => none
        | some n =>
            let v : Int := if neg then -(n : Int) else (n : Int)
            if -(2 ^ 63) ≤ v ∧ v < 2 ^ 63 then some v else none

/-- Go `http.Header.Get`: first value stored under the key, or the
empty string when the header is absent. -/
def headerGet (hs : List (String × String)) (k : String) : String :=
  match hs.find? (fun p => p.1 == k) with
  | some p => p.2
  | none => ""

/-- Go `strings.TrimSuffix(s, "/")` as used by `WithBaseURL`: if the
string ends in a slash, that one final slash is removed, otherwise the
string is returned unchanged.  At most one slash is removed. -/
def trimTrailingSlash (s : String) : String :=
  if s.toList.getLast? = some '/' then String.mk s.toList.dropLast else s

/-- Abstraction of `url.JoinPath(base, path)` for the shapes the client
uses (a relative path joined onto an absolute base): the two strings
joined with exactly one separating slash kept from the path when the
path already starts with one. -/
def joinURL (base path : String) : String :=
  if path.toList.head? = some '/' then base ++ path else base ++ "/" ++ path

/-! ## Typed error model (package `client`) -/

/-- `ErrorResponse`: structured API error body `{error, message, code}`
decoded from a non-2xx JSON body. -/
structure ErrorResponse where
  errorMsg : String
  message : String
  code : String
deriving DecidableEq

/-- `RateLimitError`: an `ErrorResponse` plus the three rate-limit
header fields.  `resetTime = none` models the zero `time.Time` (header
absent or malformed); `some ts` models `time.Unix(ts, 0)`. -/
structure RateLimitError where
  errResp : ErrorResponse
  remainingRequests : Int
  resetTime : Option Int
  retryAfterSeconds : Int
deriving DecidableEq

/-- Go `context.Context` cancellation causes, the values `ctx.Err()`
can take once the context is done. -/
inductive CtxErr where
  | canceled
  | deadlineExceeded
deriving DecidableEq

/-- The Go `error` values the client core can return, one constructor
per distinct error production site. -/
inductive GoError where
  | rateLimit (e : RateLimitError)
  | api (e : ErrorResponse)
  | statusFallback (status : Nat) (body : String)
  | parseFailed
  | healthFailed (status : Nat)
  | transport (msg : String)
  | ctx (e : CtxErr)
  | maxRetriesExceeded
deriving DecidableEq

/-! ## Client construction (`NewClient`, options, facade constructor) -/

/-- `APIVersion` constant. -/
def APIVersion : String := "v1"

/-- `DefaultBaseURL` constant. -/
def DefaultBaseURL : String := "https://api.toneclone.ai"

/-- `DefaultTimeout` (30 seconds) in nanoseconds. -/
def DefaultTimeoutNs : Int := 30 * NsPerSecond

/-- The `Client` struct: base URL, API key, user agent, the client's
own timeout field and the embedded `http.Client`'s timeout (both
`time.Duration`, kept separately because `WithTimeout` sets both while
`NewClient` initialises them independently). -/
structure Client where
  baseURL : String
  apiKey : String
  userAgent : String
  timeoutNs : Int
  httpTimeoutNs : Int
deriving DecidableEq

/-- A `ClientOption` is a mutation of the client under construction. -/
def ClientOption : Type := Client → Client

/-- `WithBaseURL`: stores the base URL with `strings.TrimSuffix(_, "/")`
applied. -/
def WithBaseURL (baseURL : String) : ClientOption :=
  fun c => { c with baseURL := trimTrailingSlash baseURL }

/-- `WithTimeout`: sets both the client timeout field and the
underlying HTTP client's timeout. -/
def WithTimeout (timeoutNs : Int) : ClientOption :=
  fun c => { c with timeoutNs := timeoutNs, httpTimeoutNs := timeoutNs }

/-- `WithUserAgent`. -/
def WithUserAgent (userAgent : String) : ClientOption :=
  fun c => { c with userAgent := userAgent }

/-- `NewClient`: defaults, then the options applied in order. -/
def NewClient (apiKey : String) (options : List ClientOption) : Client :=
  options.foldl (fun c o => o c)
    { baseURL := DefaultBaseURL
      apiKey := apiKey
      userAgent := "toneclone-cli/" ++ APIVersion
      timeoutNs := DefaultTimeoutNs
      httpTimeoutNs := DefaultTimeoutNs }

/-- `NewToneCloneClientFromConfig` (facade constructor in
`toneclone.go`): `NewClient` with `WithBaseURL` then `WithTimeout`.
The resource sub-clients all share this base client, so only the base
`Client` value is modelled. -/
def NewToneCloneClientFromConfig (baseURL apiKey : String) (timeoutNs : Int) : Client :=
  NewClient apiKey [WithBaseURL baseURL, WithTimeout timeoutNs]

/-! ## Request construction (`makeRequest`) -/

/-- An outbound HTTP request as built by `makeRequest`.  The body is
`none` for a nil body and `some s` for a non-nil body whose JSON
marshalling is the byte string `s` (a body that fails to marshal makes
`makeRequest` return before any request is built, so built requests
always carry marshalled bytes). -/
structure Request where
  method : String
  url : String
  headers : List (String × String)
  body : Option String
deriving DecidableEq

/-- `makeRequest`: joins the URL and sets the five headers in source
order on every request. -/
def makeRequest (c : Client) (method path : String) (body : Option String) : Request :=
  { method := method
    url := joinURL c.baseURL path
    headers :=
      [("Authorization", "Bearer " ++ c.apiKey),
       ("Content-Type", "application/json"),
       ("Accept", "application/json"),
       ("User-Agent", c.userAgent),
       ("TC-API-Version", APIVersion)]
    body := body }

/-! ## Response decoding (`doRequest`) -/

/-- A fully received HTTP response: status code, headers, body bytes. -/
structure Response where
  statusCode : Nat
  headers : List (String × String)
  body : String
deriving DecidableEq

/-- The 429 branch of `doRequest`: a `RateLimitError` built from the
decoded body and the three rate-limit headers.  Each field is set only
when its header is non-empty and parses; otherwise it keeps its zero
value, and a parse failure is never an error. -/
def parse429 (errorResp : ErrorResponse) (headers : List (String × String)) : RateLimitError :=
  let remaining := headerGet headers "X-RateLimit-Remaining"
  let reset := headerGet headers "X-RateLimit-Reset"
  let retryAfter := headerGet headers "Retry-After"
  { errResp := errorResp
    remainingRequests :=
      if remaining ≠ "" then (goParseInt64 remaining).getD 0 else 0
    resetTime :=
      if reset ≠ "" then goParseInt64 reset else none
    retryAfterSeconds :=
      if retryAfter ≠ "" then (goParseInt64 retryAfter).getD 0 else 0 }

/-- `doRequest`, from the point where the response body has been read.
`uErr` abstracts `json.Unmarshal` into `ErrorResponse`, `uRes`
abstracts `json.Unmarshal` into the caller's target type `T`; both
return `none` exactly when unmarshalling fails.  `result` is the
caller's decode target: `none` is a nil target, `some t` a pointer to
the value `t`.  Returns the Go error together with the target's value
after the call. -/
def doRequest {T : Type} (uErr : String → Option ErrorResponse)
    (uRes : String → Option T) (resp : Response) (result : Option T) :
    Option GoError × Option T :=
  let respBody := resp.body
  if 400 ≤ resp.statusCode then
    match uErr respBody with
    | none => (some (.statusFallback resp.statusCode respBody), result)
    | some errorResp =>
        if resp.statusCode = 429 then
          (some (.rateLimit (parse429 errorResp resp.headers)), result)
        else
          (some (.api errorResp), result)
  else
    match result with
    | none => (none, none)
    | some t =>
        if respBody.length = 0 then (none, some t)
        else
          match uRes respBody with
          | none => (some .parseFailed, some t)
          | some v => (none, some v)

/-! ## Health probe -/

/-- The single request `Health` issues: a GET of the fixed liveness
path through `makeRequest` with a nil body. -/
def healthRequest (c : Client) : Request :=
  makeRequest c "GET" "/ping" none

/-- `Health`, from the point where the response to `healthRequest` has
arrived: nil on any 2xx status, otherwise the formatted failure. -/
def Health (_c : Client) (resp : Response) : Option GoError :=
  if 200 ≤ resp.statusCode ∧ resp.statusCode < 300 then none
  else some (.healthFailed resp.statusCode)

/-! ## Rate-limit retry engine (`doRequestWithRetry`) -/

/-- Outcome of one backoff sleep: the `select` either sees the timer
fire (`completed`) or sees the context become done first (`canceled`
with the context's error). -/
inductive WaitRes where
  | completed
  | canceled (ce : CtxErr)
deriving DecidableEq

/-- The delay computed for a retry after attempt `attempt` (0-based)
returned `RetryAfterSeconds = r`:
`time.Duration(r) * time.Second` when `r > 0`, else
`baseDelay * time.Duration(1 << attempt)`, then clamped to at most 60
seconds.  Both multiplications are `int64` and wrap on overflow. -/
def computeDelay (attempt : Nat) (r : Int) : Int :=
  let delay : Int :=
    if 0 < r then wrap64 (r * NsPerSecond)
    else wrap64 (NsPerSecond * goShl1 attempt)
  if 60 * NsPerSecond < delay then 60 * NsPerSecond else delay

/-- `maxRetries` constant of `doRequestWithRetry`. -/
def maxRetries : Nat := 3

/-- The retry loop from loop index `a` with `n` iterations left.
`attempts i` is the error `doRequest` produces on attempt `i` (`none`
is success); `waits i d` is what the backoff `select` after attempt
`i` with computed delay `d` observes.  Returns the loop's result
together with the number of attempts executed.  The `n = 0` case is
the code after the loop: the fabricated `max retries exceeded`
error. -/
def retryFrom (attempts : Nat → Option GoError) (waits : Nat → Int → WaitRes) :
    Nat → Nat → Option GoError × Nat
  | _, 0 => (some .maxRetriesExceeded, 0)
  | a, n + 1 =>
      match attempts a with
      | some (.rateLimit e) =>
          if n = 0 then
            (some (.rateLimit e), 1)
          else
            match waits a (computeDelay a e.retryAfterSeconds) with
            | .canceled ce => (some (.ctx ce), 1)
            | .completed =>
                let r := retryFrom attempts waits (a + 1) n
                (r.1, r.2 + 1)
      | out => (out, 1)

/-- `doRequestWithRetry`: the loop run from attempt 0 with
`maxRetries` iterations available. -/
def doRequestWithRetry (attempts : Nat → Option GoError)
    (waits : Nat → Int → WaitRes) : Option GoError × Nat :=
  retryFrom attempts waits 0 maxRetries

/-! ## Example values used by witnesses -/

/-- A sample `RateLimitError`. -/
def rleExample : RateLimitError :=
  { errResp := { errorMsg := "rate_limited", message := "slow down", code := "429" }
    remainingRequests := 0
    resetTime := none
    retryAfterSeconds := 2 }

/-- A sample decoded error body. -/
def errRespExample : ErrorResponse :=
  { errorMsg := "rate_limited", message := "", code := "" }

/-- A sample 429 response carrying all three rate-limit headers. -/
def respExample429 : Response :=
  { statusCode := 429
    headers :=
      [("X-RateLimit-Remaining", "5"),
       ("X-RateLimit-Reset", "1700000000"),
       ("Retry-After", "2")]
    body := "rate-limit-body" }

/-- A sample configured client. -/
def clientExample : Client :=
  { baseURL := "https://api.toneclone.ai"
    apiKey := "test-key"
    userAgent := "toneclone-cli/v1"
    timeoutNs := DefaultTimeoutNs
    httpTimeoutNs := DefaultTimeoutNs }

/-! ## Helper lemmas about the retry loop -/

/-- With a single iteration left, the loop returns that attempt's
outcome: the rate-limit arm returns it because the attempt is the
last, every other arm returns it immediately. -/
theorem retryFrom_one (A : Nat → Option GoError) (W : Nat → Int → WaitRes) (a : Nat) :
    retryFrom A W a 1 = (A a, 1) := by
  cases hA : A a with
  | none => simp [retryFrom, hA]
  | some g => cases g <;> simp [retryFrom, hA]

/-- An attempt whose outcome is not a rate-limit error ends the loop
with that outcome, whatever the remaining iteration budget. -/
theorem retryFrom_step_other (A : Nat → Option GoError) (W : Nat → Int → WaitRes)
    (a n : Nat) (h : ∀ e, A a ≠ some (.rateLimit e)) :
    retryFrom A W a (n + 1) = (A a, 1) := by
  cases hA : A a with
  | none => simp [retryFrom, hA]
  | some g => cases g <;> simp_all [retryFrom]

/-- A rate-limited non-final attempt whose backoff wait observes
cancellation ends the loop with the context's error. -/
theorem retryFrom_step_rate_canceled (A : Nat → Option GoError) (W : Nat → Int → WaitRes)
    (a n : Nat) (e : RateLimitError) (ce : CtxErr)
    (h : A a = some (.rateLimit e))
    (hw : W a (computeDelay a e.retryAfterSeconds) = .canceled ce) :
    retryFrom A W a (n + 1 + 1) = (some (.ctx ce), 1) := by
  simp [retryFrom, h, hw]

/-- A rate-limited non-final attempt whose backoff wait completes
continues the loop at the next attempt. -/
theorem retryFrom_step_rate_completed (A : Nat → Option GoError) (W : Nat → Int → WaitRes)
    (a n : Nat) (e : RateLimitError)
    (h : A a = some (.rateLimit e))
    (hw : W a (computeDelay a e.retryAfterSeconds) = .completed) :
    retryFrom A W a (n + 1 + 1) =
      ((retryFrom A W (a + 1) (n + 1)).1, (retryFrom A W (a + 1) (n + 1)).2 + 1) := by
  simp [retryFrom, h, hw]

/-! ## Claim theorems -/

/-- C1: if every attempt of `doRequestWithRetry` produces a
`RateLimitError` (and the backoff waits run to completion), exactly 3
attempts are executed and the error returned to the caller is the
`RateLimitError` of the third attempt, unchanged and unwrapped. -/
theorem retry_exhaustion_returns_final_rate_limit
    (attempts : Nat → Option GoError) (waits : Nat → Int → WaitRes)
    (e0 e1 e2 : RateLimitError)
    (h0 : attempts 0 = some (.rateLimit e0))
    (h1 : attempts 1 = some (.rateLimit e1))
    (h2 : attempts 2 = some (.rateLimit e2))
    (w0 : ∀ d, waits 0 d = .completed)
    (w1 : ∀ d, waits 1 d = .completed) :
    doRequestWithRetry attempts waits = (some (.rateLimit e2), 3) := by
  simp [doRequestWithRetry, maxRetries, retryFrom, h0, h1, h2, w0, w1]

/-- Witness for C1: three rate-limited attempts with completing waits
give 3 attempts and the final rate-limit error. -/
theorem retry_exhaustion_returns_final_rate_limit_witness :
    doRequestWithRetry (fun _ => some (.rateLimit rleExample)) (fun _ _ => .completed) =
      (some (.rateLimit rleExample), 3) :=
  retry_exhaustion_returns_final_rate_limit _ _ rleExample rleExample rleExample
    rfl rfl rfl (fun _ => rfl) (fun _ => rfl)

/-- C2: an attempt outcome that is not a `RateLimitError` — success or
any other error — is returned after exactly one attempt, for every
possible wait oracle (so no backoff sleep happens). -/
theorem non_rate_limit_returns_immediately
    (attempts : Nat → Option GoError) (waits : Nat → Int → WaitRes)
    (h : ∀ e, attempts 0 ≠ some (.rateLimit e)) :
    doRequestWithRetry attempts waits = (attempts 0, 1) := by
  unfold doRequestWithRetry maxRetries
  exact retryFrom_step_other attempts waits 0 2 h

/-- Witness for C2: a first attempt that succeeds is returned at once
with one attempt executed. -/
theorem non_rate_limit_returns_immediately_witness :
    doRequestWithRetry (fun _ => none) (fun _ _ => .completed) = (none, 1) :=
  non_rate_limit_returns_immediately _ _ (fun e hc => by simp at hc)

/-- C4: if the context becomes done during the backoff wait after
rate-limited attempt `k` (the earlier waits having completed), the
call returns the context's cancellation error — not the rate-limit
error — and no further attempt is executed. -/
theorem cancellation_during_backoff_returns_ctx_error
    (attempts : Nat → Option GoError) (waits : Nat → Int → WaitRes)
    (ce : CtxErr) (k : Nat) (hk : k < 2)
    (hA : ∀ i, i ≤ k → ∃ e, attempts i = some (.rateLimit e))
    (hw : ∀ i d, i < k → waits i d = .completed)
    (hc : ∀ d, waits k d = .canceled ce) :
    doRequestWithRetry attempts waits = (some (.ctx ce), k + 1) := by
  interval_cases k
  · obtain ⟨e0, h0⟩ := hA 0 le_rfl
    simp [doRequestWithRetry, maxRetries, retryFrom, h0, hc]
  · obtain ⟨e0, h0⟩ := hA 0 (by omega)
    obtain ⟨e1, h1⟩ := hA 1 le_rfl
    have hw0 : ∀ d, waits 0 d = .completed := fun d => hw 0 d (by omega)
    simp [doRequestWithRetry, maxRetries, retryFrom, h0, h1, hw0, hc]

/-- Witness for C4: cancellation during the first backoff wait stops
the call after one attempt with the context's error. -/
theorem cancellation_during_backoff_returns_ctx_error_witness :
    doRequestWithRetry (fun _ => some (.rateLimit rleExample))
      (fun _ _ => .canceled .canceled) = (some (.ctx .canceled), 1) :=
  cancellation_during_backoff_returns_ctx_error _ _ .canceled 0 (by omega)
    (fun _ _ => ⟨rleExample, rfl⟩)
    (fun i _ hi => absurd hi (Nat.not_lt_zero i))
    (fun _ => rfl)

/-- C10: for every attempt oracle and every wait oracle, the retry
engine returns either the outcome of one of its at most three
attempts, or the context's cancellation error raised during one of
the two possible backoff waits; in particular the post-loop branch
that fabricates the generic `max retries exceeded` error is never
reached. -/
theorem retry_returns_attempt_outcome_or_cancellation
    (attempts : Nat → Option GoError) (waits : Nat → Int → WaitRes) :
    (∃ i, i < 3 ∧ doRequestWithRetry attempts waits = (attempts i, i + 1)) ∨
    (∃ i ce, i < 2 ∧ doRequestWithRetry attempts waits = (some (.ctx ce), i + 1)) := by
  unfold doRequestWithRetry maxRetries
  by_cases h0 : ∃ e, attempts 0 = some (.rateLimit e)
  · obtain ⟨e0, h0⟩ := h0
    cases w0 : waits 0 (computeDelay 0 e0.retryAfterSeconds) with
    | canceled ce =>
        refine Or.inr ⟨0, ce, by omega, ?_⟩
        show retryFrom attempts waits 0 (1 + 1 + 1) = _
        rw [retryFrom_step_rate_canceled attempts waits 0 1 e0 ce h0 w0]
    | completed =>
        have s0 : retryFrom attempts waits 0 3 =
            ((retryFrom attempts waits 1 2).1, (retryFrom attempts waits 1 2).2 + 1) := by
          show retryFrom attempts waits 0 (1 + 1 + 1) = _
          rw [retryFrom_step_rate_completed attempts waits 0 1 e0 h0 w0]
        by_cases h1 : ∃ e, attempts 1 = some (.rateLimit e)
        · obtain ⟨e1, h1⟩ := h1
          cases w1 : waits 1 (computeDelay 1 e1.retryAfterSeconds) with
          | canceled ce =>
              refine Or.inr ⟨1, ce, by omega, ?_⟩
              have s1 : retryFrom attempts waits 1 2 = (some (.ctx ce), 1) := by
                show retryFrom attempts waits 1 (0 + 1 + 1) = _
                rw [retryFrom_step_rate_canceled attempts waits 1 0 e1 ce h1 w1]
              rw [s0, s1]
          | completed =>
              have s1 : retryFrom attempts waits 1 2 =
                  ((retryFrom attempts waits 2 1).1, (retryFrom attempts waits 2 1).2 + 1) := by
                show retryFrom attempts waits 1 (0 + 1 + 1) = _
                rw [retryFrom_step_rate_completed attempts waits 1 0 e1 h1 w1]
              refine Or.inl ⟨2, by omega, ?_⟩
              rw [s0, s1, retryFrom_one]
        · push_neg at h1
          refine Or.inl ⟨1, by omega, ?_⟩
          have s1 : retryFrom attempts waits 1 2 = (attempts 1, 1) := by
            show retryFrom attempts waits 1 (1 + 1) = _
            exact retryFrom_step_other attempts waits 1 1 h1
          rw [s0, s1]
  · push_neg at h0
    refine Or.inl ⟨0, by omega, ?_⟩
    show retryFrom attempts waits 0 (2 + 1) = _
    exact retryFrom_step_other attempts waits 0 2 h0

/-- The empty header string never parses. -/
theorem goParseInt64_empty : goParseInt64 "" = none := rfl

/-- The set-only-on-success pattern for an int header field equals a
parse with default zero, since an absent header is the empty string
and the empty string never parses. -/
theorem parseIntField_eq (s : String) :
    (if s ≠ "" then (goParseInt64 s).getD 0 else 0) = (goParseInt64 s).getD 0 := by
  by_cases h : s = ""
  · subst h; simp [goParseInt64_empty]
  · simp [h]

/-- Same collapse for the reset-time field. -/
theorem parseResetField_eq (s : String) :
    (if s ≠ "" then goParseInt64 s else none) = goParseInt64 s := by
  by_cases h : s = ""
  · subst h; simp [goParseInt64_empty]
  · simp [h]

/-- C5: a 429 response whose body decodes as an error object yields a
`RateLimitError` populated from that body and the three rate-limit
headers, an absent or malformed header leaving its field at the zero
value without ever failing the call; and for any non-429 status the
result of `doRequest` does not depend on those headers at all. -/
theorem rate_limit_classification {T : Type} (uErr : String → Option ErrorResponse)
    (uRes : String → Option T) (resp : Response) (result : Option T) :
    (∀ er, resp.statusCode = 429 → uErr resp.body = some er →
      doRequest uErr uRes resp result =
        (some (.rateLimit
          { errResp := er
            remainingRequests :=
              (goParseInt64 (headerGet resp.headers "X-RateLimit-Remaining")).getD 0
            resetTime := goParseInt64 (headerGet resp.headers "X-RateLimit-Reset")
            retryAfterSeconds :=
              (goParseInt64 (headerGet resp.headers "Retry-After")).getD 0 }), result)) ∧
    (resp.statusCode ≠ 429 → ∀ hs : List (String × String),
      doRequest uErr uRes { resp with headers := hs } result =
        doRequest uErr uRes resp result) := by
  constructor
  · intro er h429 hdec
    simp [doRequest, h429, hdec, parse429, parseIntField_eq, parseResetField_eq]
    exact ⟨fun h => by rw [h]; rfl, fun h => by rw [h]; rfl, fun h => by rw [h]; rfl⟩
  · intro hne hs
    by_cases h4 : 400 ≤ resp.statusCode
    · cases hdec : uErr resp.body with
      | none => simp [doRequest, h4, hdec]
      | some er => simp [doRequest, h4, hdec, hne]
    · simp [doRequest, h4]

/-- Witness for C5: a concrete 429 response with all three headers set
produces the fully populated `RateLimitError`. -/
theorem rate_limit_classification_witness :
    doRequest (fun _ => some errRespExample) (fun _ => (none : Option Nat))
        respExample429 none =
      (some (.rateLimit
        { errResp := errRespExample
          remainingRequests := 5
          resetTime := some 1700000000
          retryAfterSeconds := 2 }), none) := by
  have h := (rate_limit_classification (fun _ => some errRespExample)
    (fun _ => (none : Option Nat)) respExample429 none).1 errRespExample rfl rfl
  exact h.trans (by decide)

/-- C6: a response with a success status (below 400) and a zero-length
body returns no error and leaves the caller's decode target exactly as
it was. -/
theorem empty_body_leaves_target_untouched {T : Type}
    (uErr : String → Option ErrorResponse) (uRes : String → Option T)
    (resp : Response) (result : Option T)
    (hst : resp.statusCode < 400) (hb : resp.body.length = 0) :
    doRequest uErr uRes resp result = (none, result) := by
  have h4 : ¬ 400 ≤ resp.statusCode := by omega
  cases result with
  | none => simp [doRequest, h4]
  | some t => simp [doRequest, h4, hb]

/-- Witness for C6: a 200 response with an empty body keeps the target
value 7 and returns nil. -/
theorem empty_body_leaves_target_untouched_witness :
    doRequest (fun _ => none) (fun _ => (none : Option Nat))
      { statusCode := 200, headers := [], body := "" } (some 7) = (none, some 7) :=
  empty_body_leaves_target_untouched _ _ _ _ (by decide) (by decide)

/-- C7: every request built by `makeRequest`, for every method and
every body, carries the Authorization, Content-Type, Accept,
User-Agent and TC-API-Version headers with their configured values. -/
theorem header_invariant (c : Client) (method path : String) (body : Option String) :
    headerGet (makeRequest c method path body).headers "Authorization" =
        "Bearer " ++ c.apiKey ∧
    headerGet (makeRequest c method path body).headers "Content-Type" =
        "application/json" ∧
    headerGet (makeRequest c method path body).headers "Accept" =
        "application/json" ∧
    headerGet (makeRequest c method path body).headers "User-Agent" = c.userAgent ∧
    headerGet (makeRequest c method path body).headers "TC-API-Version" = APIVersion :=
  ⟨rfl, rfl, rfl, rfl, rfl⟩

/-- Witness for C7: the concrete example client's POST request carries
all five headers. -/
theorem header_invariant_witness :
    headerGet (makeRequest clientExample "POST" "/generate" (some "{}")).headers
        "Authorization" = "Bearer test-key" ∧
    headerGet (makeRequest clientExample "POST" "/generate" (some "{}")).headers
        "User-Agent" = "toneclone-cli/v1" := by
  have h := header_invariant clientExample "POST" "/generate" (some "{}")
  exact ⟨h.1.trans (by decide), h.2.2.2.1.trans (by decide)⟩

/-- C8 (amended): `Health` issues exactly one GET of the fixed path
`/ping` with a nil body and no retry, and succeeds exactly on a 2xx
status; the Authorization header is attached to that request like any
other (`makeRequest` sets it unconditionally) — the endpoint merely
does not require it. -/
theorem health_single_get_with_auth (c : Client) (resp : Response) :
    (healthRequest c).method = "GET" ∧
    (healthRequest c).url = joinURL c.baseURL "/ping" ∧
    (healthRequest c).body = none ∧
    headerGet (healthRequest c).headers "Authorization" = "Bearer " ++ c.apiKey ∧
    (Health c resp = none ↔ 200 ≤ resp.statusCode ∧ resp.statusCode < 300) := by
  refine ⟨rfl, rfl, rfl, rfl, ?_⟩
  unfold Health
  by_cases h : 200 ≤ resp.statusCode ∧ resp.statusCode < 300
  · simp [h]
  · simp [h]

/-- Witness for C8 (amended): the example client's health probe is a
GET of `/ping` carrying the bearer token, succeeding on 204. -/
theorem health_single_get_with_auth_witness :
    (healthRequest clientExample).method = "GET" ∧
    headerGet (healthRequest clientExample).headers "Authorization" = "Bearer test-key" ∧
    Health clientExample { statusCode := 204, headers := [], body := "" } = none := by
  have h := health_single_get_with_auth clientExample
    { statusCode := 204, headers := [], body := "" }
  exact ⟨h.1, (h.2.2.2.1).trans (by decide), h.2.2.2.2.mpr (by decide)⟩

/-- Counterexample to C8 as stated: the health request does carry an
Authorization header, with the bearer token as its value. -/
theorem health_sends_auth_header_counterexample :
    headerGet (healthRequest clientExample).headers "Authorization" = "Bearer test-key" ∧
    ("Bearer test-key" : String) ≠ "" := by
  exact ⟨by decide, by decide⟩

/-- C9 (amended): construction stores exactly
`strings.TrimSuffix(baseURL, "/")`, which removes at most one trailing
slash; so for every supplied base URL that does not end in two
slashes, the stored base URL has no trailing slash.  (A URL ending in
`//` keeps a trailing slash, see the counterexample.) -/
theorem base_url_one_trailing_slash_trimmed (u k : String) (t : Int)
    (h : ¬ (u.toList.getLast? = some '/' ∧ u.toList.dropLast.getLast? = some '/')) :
    (NewToneCloneClientFromConfig u k t).baseURL = trimTrailingSlash u ∧
    (NewToneCloneClientFromConfig u k t).baseURL.toList.getLast? ≠ some '/' := by
  have hb : (NewToneCloneClientFromConfig u k t).baseURL = trimTrailingSlash u := rfl
  refine ⟨hb, ?_⟩
  rw [hb]
  unfold trimTrailingSlash
  by_cases hl : u.toList.getLast? = some '/'
  · rw [if_pos hl]
    have hmk : (String.mk u.toList.dropLast).toList = u.toList.dropLast := rfl
    rw [hmk]
    intro hc
    exact h ⟨hl, hc⟩
  · rw [if_neg hl]
    exact hl

/-- Witness for C9 (amended): a base URL with a single trailing slash
is stored without it. -/
theorem base_url_one_trailing_slash_trimmed_witness :
    (NewToneCloneClientFromConfig "https://api.toneclone.ai/" "key" DefaultTimeoutNs).baseURL
        = "https://api.toneclone.ai" ∧
    (NewToneCloneClientFromConfig "https://api.toneclone.ai/" "key"
        DefaultTimeoutNs).baseURL.toList.getLast? ≠ some '/' := by
  have h := base_url_one_trailing_slash_trimmed "https://api.toneclone.ai/" "key"
    DefaultTimeoutNs (by decide)
  exact ⟨h.1.trans (by decide), h.2⟩

/-- Counterexample to C9 as stated: a supplied base URL ending in two
slashes is stored with a trailing slash remaining, because
`strings.TrimSuffix` removes only one occurrence. -/
theorem base_url_double_slash_counterexample :
    (NewToneCloneClientFromConfig "https://api.toneclone.ai//" "key"
        DefaultTimeoutNs).baseURL = "https://api.toneclone.ai/" ∧
    (NewToneCloneClientFromConfig "https://api.toneclone.ai//" "key"
        DefaultTimeoutNs).baseURL.toList.getLast? = some '/' := by
  exact ⟨by decide, by decide⟩

/-- C3 (amended): for a non-final retry attempt `i` after a rate-limit
error with `RetryAfterSeconds = r`: when `0 < r ≤ 9223372036` (so the
nanosecond product fits in `int64`) the delay is `r` seconds clamped
to at most 60 seconds; when `r ≤ 0` the delay is `2^i` seconds; and in
every case — including the overflowing `r > 9223372036`, where the
wrapped product can be negative — the delay never exceeds 60 seconds. -/
theorem backoff_delay_amended (i : Nat) (r : Int) (hi : i < 2) :
    (0 < r → r ≤ 9223372036 →
      computeDelay i r = min (r * NsPerSecond) (60 * NsPerSecond)) ∧
    (r ≤ 0 → computeDelay i r = 2 ^ i * NsPerSecond) ∧
    computeDelay i r ≤ 60 * NsPerSecond := by
  refine ⟨?_, ?_, ?_⟩
  · intro h1 h2
    simp only [computeDelay, wrap64, NsPerSecond, if_pos h1]
    have hm : (r * 1000000000 + 9223372036854775808) % 18446744073709551616
        = r * 1000000000 + 9223372036854775808 := by
      apply Int.emod_eq_of_lt <;> omega
    rw [hm]
    split <;> omega
  · intro hr
    have h0 : ¬ (0 : Int) < r := by omega
    interval_cases i <;> simp [computeDelay, wrap64, goShl1, NsPerSecond, h0]
  · by_cases h1 : 0 < r
    · simp only [computeDelay, wrap64, NsPerSecond, if_pos h1]
      split <;> omega
    · simp only [computeDelay, wrap64, goShl1, NsPerSecond, if_neg h1]
      by_cases h64 : 64 ≤ i
      · rw [if_pos h64]
        split <;> omega
      · rw [if_neg h64]
        split <;> omega

/-- Witness for C3 (amended): `Retry-After: 75` gives a delay clamped
to 60 seconds, and `RetryAfterSeconds = 0` on attempt 1 gives the
exponential 2-second delay. -/
theorem backoff_delay_amended_witness :
    (0 : Int) < 75 ∧ (75 : Int) ≤ 9223372036 ∧
    computeDelay 0 75 = min (75 * NsPerSecond) (60 * NsPerSecond) ∧
    computeDelay 1 0 = 2 ^ 1 * NsPerSecond := by
  refine ⟨by decide, by decide, ?_, ?_⟩
  · exact (backoff_delay_amended 0 75 (by decide)).1 (by decide) (by decide)
  · exact (backoff_delay_amended 1 0 (by decide)).2.1 (by decide)

/-- Counterexample to C3 as stated: on attempt 0 with
`RetryAfterSeconds = 10^10` (parseable from a `Retry-After` header,
and positive), the claimed delay would be `10^10` seconds clamped to
60 seconds, but the `int64` nanosecond product wraps and the computed
delay is a large negative duration instead. -/
theorem backoff_delay_overflow_counterexample :
    computeDelay 0 10000000000 = -8446744073709551616 ∧
    computeDelay 0 10000000000 ≠ 10000000000 * NsPerSecond ∧
    computeDelay 0 10000000000 ≠ 60 * NsPerSecond ∧
    goParseInt64 "10000000000" = some 10000000000 := by
  refine ⟨by decide, by decide, by decide, by decide⟩
